import Mathlib

/-!
Shallow embedding of the plants configuration store of `src/api/app.py`
(Flask + SQLite).  JSON request bodies are modelled field by field: a key
can be absent, present with a null value, or present with a value.  The
SQLite table is a list of rows in rowid order together with the next
AUTOINCREMENT id; the NOT NULL and UNIQUE(name) constraints are enforced
by the insert operation, mirroring sqlite3.IntegrityError.  The column
named `axiom` in the schema is called `axm` here because `axiom` is a
Lean keyword.
-/

/-- State of one key of a JSON object: absent, present with JSON null, or
present with a value.  Python's `dict.get` collapses absent and null to
`None`, which is why both are modelled. -/
inductive JField (α : Type) where
  | absent : JField α
  | null : JField α
  | val : α → JField α
deriving DecidableEq

/-- Embeds `data.get(k)`: `none` when the key is absent or its value is
JSON null. -/
def JField.get? {α : Type} : JField α → Option α
  | .val a => some a
  | _ => none

/-- Embeds `data.get(k, d)`: the default `d` applies only when the key is
absent; a present null value stays `none` (SQL NULL). -/
def JField.getD {α : Type} : JField α → α → Option α
  | .absent, d => some d
  | .null, _ => none
  | .val a, _ => some a

/-- Embeds the Python membership test `k in data`. -/
def JField.present {α : Type} : JField α → Bool
  | .absent => false
  | _ => true

/-- The rational written 0.1 in the source (given in normal form so that
kernel evaluation of concrete states works). -/
def qTenth : ℚ := ⟨1, 10, by decide, by decide⟩

/-- The rational written 0.8 in the source. -/
def qFourFifths : ℚ := ⟨4, 5, by decide, by decide⟩

/-- One row of the `plants` table.  Columns with NOT NULL are plain
values; the remaining columns may hold SQL NULL and are `Option`. -/
structure Row where
  id : Nat
  name : String
  timestamp : Int
  axm : String
  rules : String
  iterations : Int
  angle : ℚ
  angle_variation : Option ℚ
  length_variation : Option ℚ
  length_tapering : Option ℚ
  leaf_probability : Option ℚ
  leaf_generation_threshold : Option Int
  length : Option ℚ
  thickness : Option ℚ
  tapering : Option ℚ
deriving DecidableEq

/-- The persisted table: rows in rowid (insertion) order plus the next
AUTOINCREMENT id. -/
structure DB where
  rows : List Row
  nextId : Nat
deriving DecidableEq

/-- All stored names, in rowid order. -/
def DB.names (db : DB) : List String := db.rows.map Row.name

/-- The fourteen values bound by the INSERT statements of `create_plant`
and `migrate_from_localstorage`; `none` is SQL NULL. -/
structure InsertVals where
  name : Option String
  timestamp : Option Int
  axm : Option String
  rules : Option String
  iterations : Option Int
  angle : Option ℚ
  angle_variation : Option ℚ
  length_variation : Option ℚ
  length_tapering : Option ℚ
  leaf_probability : Option ℚ
  leaf_generation_threshold : Option Int
  length : Option ℚ
  thickness : Option ℚ
  tapering : Option ℚ
deriving DecidableEq

/-- Embeds `INSERT INTO plants (...) VALUES (...)`: raises
sqlite3.IntegrityError (`none`) when a NOT NULL column receives NULL or
when the UNIQUE(name) constraint is violated; otherwise appends the new
row and returns it. -/
def DB.insert (db : DB) (v : InsertVals) : Option (Row × DB) :=
  match v.name, v.timestamp, v.axm, v.rules, v.iterations, v.angle with
  | some n, some ts, some ax, some ru, some it, some an =>
      if n ∈ db.names then none
      else
        let r : Row :=
          { id := db.nextId
            name := n
            timestamp := ts
            axm := ax
            rules := ru
            iterations := it
            angle := an
            angle_variation := v.angle_variation
            length_variation := v.length_variation
            length_tapering := v.length_tapering
            leaf_probability := v.leaf_probability
            leaf_generation_threshold := v.leaf_generation_threshold
            length := v.length
            thickness := v.thickness
            tapering := v.tapering }
        some (r, { rows := db.rows ++ [r], nextId := db.nextId + 1 })
  | _, _, _, _, _, _ => none

/-- A parsed JSON body for POST /api/plants and PUT /api/plants/id, with
the keys those handlers read; `hasExtra` records whether the object holds
any further keys (they only matter for the emptiness test `not data`). -/
structure Input where
  name : JField String
  axm : JField String
  rules : JField String
  iterations : JField Int
  angle : JField ℚ
  angleVariation : JField ℚ
  lengthVariation : JField ℚ
  lengthTapering : JField ℚ
  leafProbability : JField ℚ
  leafGenerationThreshold : JField Int
  length : JField ℚ
  thickness : JField ℚ
  tapering : JField ℚ
  timestamp : JField Int
  hasExtra : Bool
deriving DecidableEq

/-- Embeds the falsiness test `if not data` on the parsed body: true
exactly when the JSON object is empty. -/
def Input.isEmpty (d : Input) : Bool :=
  !d.name.present && !d.axm.present && !d.rules.present &&
  !d.iterations.present && !d.angle.present && !d.angleVariation.present &&
  !d.lengthVariation.present && !d.lengthTapering.present &&
  !d.leafProbability.present && !d.leafGenerationThreshold.present &&
  !d.length.present && !d.thickness.present && !d.tapering.present &&
  !d.timestamp.present && !d.hasExtra

/-- Embeds `create_plant`'s required-field loop: the first key of
[name, axiom, rules, iterations, angle] that is not in `data`, if any.
The loop checks key presence only, so a present null value passes. -/
def Input.firstMissing (d : Input) : Option String :=
  if !d.name.present then some "name"
  else if !d.axm.present then some "axiom"
  else if !d.rules.present then some "rules"
  else if !d.iterations.present then some "iterations"
  else if !d.angle.present then some "angle"
  else none

/-- The values `create_plant` binds to its INSERT: required fields are
read by subscript (after the presence check their value is the stored
value or null), optional fields via `data.get(k, default)` with the
declared defaults, and `timestamp` is the store-assigned now. -/
def createVals (d : Input) (now : Int) : InsertVals :=
  { name := d.name.get?
    timestamp := some now
    axm := d.axm.get?
    rules := d.rules.get?
    iterations := d.iterations.get?
    angle := d.angle.get?
    angle_variation := d.angleVariation.getD 0
    length_variation := d.lengthVariation.getD 0
    length_tapering := d.lengthTapering.getD 1
    leaf_probability := d.leafProbability.getD 0
    leaf_generation_threshold := d.leafGenerationThreshold.getD 0
    length := d.length.getD 1
    thickness := d.thickness.getD qTenth
    tapering := d.tapering.getD qFourFifths }

/-- Outcome of POST /api/plants: 400 with an error message, 201 with the
created row, 200 with the replaced row, or 500 from the outer handler. -/
inductive CreateResult where
  | badRequest : String → CreateResult
  | created : Row → CreateResult
  | replaced : Row → CreateResult
  | serverError : String → CreateResult
deriving DecidableEq

/-- The row written by `create_plant`'s fallback
`UPDATE plants SET ... WHERE name = ?` when the named row exists and the
required values ax, ru, it, an are non-null: a full replace of every
column except id and name, with omitted optional fields reverting to
their defaults. -/
def replaceRow (d : Input) (now : Int) (ax ru : String) (it : Int)
    (an : ℚ) (r : Row) : Row :=
  { r with
    timestamp := now
    axm := ax
    rules := ru
    iterations := it
    angle := an
    angle_variation := d.angleVariation.getD 0
    length_variation := d.lengthVariation.getD 0
    length_tapering := d.lengthTapering.getD 1
    leaf_probability := d.leafProbability.getD 0
    leaf_generation_threshold := d.leafGenerationThreshold.getD 0
    length := d.length.getD 1
    thickness := d.thickness.getD qTenth
    tapering := d.tapering.getD qFourFifths }

/-- Embeds the `except sqlite3.IntegrityError` branch of `create_plant`:
`UPDATE ... WHERE name = ?` followed by `SELECT * WHERE name = ?`.  A
null name matches no row, so the subsequent fetch returns nothing and
subscripting it raises, caught by the outer handler as a 500; likewise
when the name matches no stored row.  A null required value on a matched
row violates NOT NULL inside the except block and also surfaces as 500.
Otherwise the matched row is fully replaced and returned with 200.
replaceDB is the table state after the full-replace UPDATE. -/
def replaceDB (db : DB) (d : Input) (now : Int) (ax ru : String)
    (it : Int) (an : ℚ) (n : String) : DB :=
  { db with rows := db.rows.map (fun r =>
      if r.name = n then replaceRow d now ax ru it an r else r) }

def replaceByName (db : DB) (d : Input) (now : Int) : CreateResult × DB :=
  match d.name.get? with
  | none => (.serverError "NoneType object is not subscriptable", db)
  | some n =>
      if n ∈ db.names then
        match d.axm.get?, d.rules.get?, d.iterations.get?, d.angle.get? with
        | some ax, some ru, some it, some an =>
            match (replaceDB db d now ax ru it an n).rows.find?
                (fun r => r.name = n) with
            | some r => (.replaced r, replaceDB db d now ax ru it an n)
            | none => (.serverError "NoneType object is not subscriptable",
                replaceDB db d now ax ru it an n)
        | _, _, _, _ =>
            (.serverError "NOT NULL constraint failed", db)
      else (.serverError "NoneType object is not subscriptable", db)

/-- Embeds `create_plant` (POST /api/plants).  `now` is the value of
int(time.time() * 1000) at the call. -/
def create_plant (d : Input) (now : Int) (db : DB) : CreateResult × DB :=
  if d.isEmpty then (.badRequest "No JSON data provided", db)
  else
    match d.firstMissing with
    | some f => (.badRequest ("Missing required field: " ++ f), db)
    | none =>
        match db.insert (createVals d now) with
        | some (r, db') => (.created r, db')
        | none => replaceByName db d now

/-- Outcome of PUT /api/plants/id: 400, 404, 200 with the updated row, or
500 from the outer handler (sqlite3.IntegrityError is not caught inside
update_plant, so a uniqueness violation surfaces here). -/
inductive UpdateResult where
  | badRequest : String → UpdateResult
  | notFound : UpdateResult
  | ok : Row → UpdateResult
  | serverError : String → UpdateResult
deriving DecidableEq

/-- The row produced by `update_plant`'s
`UPDATE plants SET col = COALESCE(?, col) ... WHERE id = ?`: a field of
`data` that is present and non-null overwrites the column, anything else
leaves the stored value; `timestamp` is set unconditionally and `id` is
not in the SET list. -/
def coalesceRow (d : Input) (now : Int) (r : Row) : Row :=
  { id := r.id
    name := (d.name.get?).getD r.name
    timestamp := now
    axm := (d.axm.get?).getD r.axm
    rules := (d.rules.get?).getD r.rules
    iterations := (d.iterations.get?).getD r.iterations
    angle := (d.angle.get?).getD r.angle
    angle_variation := ((d.angleVariation.get?).map some).getD r.angle_variation
    length_variation := ((d.lengthVariation.get?).map some).getD r.length_variation
    length_tapering := ((d.lengthTapering.get?).map some).getD r.length_tapering
    leaf_probability := ((d.leafProbability.get?).map some).getD r.leaf_probability
    leaf_generation_threshold :=
      ((d.leafGenerationThreshold.get?).map some).getD r.leaf_generation_threshold
    length := ((d.length.get?).map some).getD r.length
    thickness := ((d.thickness.get?).map some).getD r.thickness
    tapering := ((d.tapering.get?).map some).getD r.tapering }

/-- The table state after update_plant's COALESCE UPDATE on row pid. -/
def coalesceDB (db : DB) (pid : Nat) (d : Input) (now : Int) : DB :=
  { db with rows := db.rows.map (fun r =>
      if r.id = pid then coalesceRow d now r else r) }

/-- Embeds `update_plant` (PUT /api/plants/id).  The UPDATE statement
violates UNIQUE(name) exactly when the coalesced name equals the name of
a different stored row; sqlite3 then raises and the outer handler
answers 500 with the constraint message, leaving the table unchanged. -/
def update_plant (pid : Nat) (d : Input) (now : Int) (db : DB) :
    UpdateResult × DB :=
  if d.isEmpty then (.badRequest "No JSON data provided", db)
  else
    match db.rows.find? (fun r => r.id = pid) with
    | none => (.notFound, db)
    | some r0 =>
        if db.rows.any
            (fun r => r.name = ((d.name.get?).getD r0.name) && r.id ≠ pid) then
          (.serverError "UNIQUE constraint failed: plants.name", db)
        else
          match (coalesceDB db pid d now).rows.find? (fun r => r.id = pid) with
          | some r => (.ok r, coalesceDB db pid d now)
          | none => (.serverError "NoneType object is not subscriptable",
              coalesceDB db pid d now)

/-- One element of the "plants" array sent to POST /api/plants/migrate:
the keys `migrate_from_localstorage` reads from each record of the
localStorage export (note the legacy key `leafThreshold`). -/
structure LegacyRecord where
  name : JField String
  axm : JField String
  rules : JField String
  iterations : JField Int
  angle : JField ℚ
  angleVariation : JField ℚ
  lengthVariation : JField ℚ
  lengthTapering : JField ℚ
  leafProbability : JField ℚ
  leafThreshold : JField Int
  length : JField ℚ
  thickness : JField ℚ
  tapering : JField ℚ
  timestamp : JField Int
deriving DecidableEq

/-- Embeds the importer's required-field validation
`all(mapped_data.get(field) is not None for field in required_fields)`:
a required field passes only when it carries a non-null value. -/
def LegacyRecord.mappedOk (r : LegacyRecord) : Bool :=
  (r.name.get?).isSome && (r.axm.get?).isSome && (r.rules.get?).isSome &&
  (r.iterations.get?).isSome && (r.angle.get?).isSome

/-- Embeds `plant_data.get("name", "unnamed")` as rendered into the
importer's error strings: an absent key gives "unnamed" and a null value
prints as Python's None. -/
def LegacyRecord.displayName (r : LegacyRecord) : String :=
  match r.name with
  | .absent => "unnamed"
  | .null => "None"
  | .val s => s

/-- The values the importer binds to its INSERT: required fields from
`plant_data.get(k)`, optional fields with the same defaults as
create_plant, `leaf_generation_threshold` from the legacy key
`leafThreshold`, and `timestamp` honoring a supplied value with
store-assigned now as the default. -/
def migrateVals (r : LegacyRecord) (now : Int) : InsertVals :=
  { name := r.name.get?
    timestamp := r.timestamp.getD now
    axm := r.axm.get?
    rules := r.rules.get?
    iterations := r.iterations.get?
    angle := r.angle.get?
    angle_variation := r.angleVariation.getD 0
    length_variation := r.lengthVariation.getD 0
    length_tapering := r.lengthTapering.getD 1
    leaf_probability := r.leafProbability.getD 0
    leaf_generation_threshold := r.leafThreshold.getD 0
    length := r.length.getD 1
    thickness := r.thickness.getD qTenth
    tapering := r.tapering.getD qFourFifths }

/-- Accumulator of the import loop: the running migrated_count, the
ordered error list, and the table state. -/
structure MState where
  migrated_count : Nat
  errors : List String
  db : DB
deriving DecidableEq

/-- The importer's error string for a record failing validation. -/
def missingMsg (r : LegacyRecord) : String :=
  "Missing required fields in plant: " ++ r.displayName

/-- The importer's error string for an insert hitting IntegrityError. -/
def existsMsg (r : LegacyRecord) : String :=
  "Plant \x27" ++ ((r.name.get?).getD "") ++ "\x27 already exists, skipped"

/-- One iteration of the import loop over a single record: validate,
then insert; a validation failure or an IntegrityError appends one error
string and leaves count and table untouched; a successful insert bumps
migrated_count. -/
def migrateStep (now : Int) (s : MState) (r : LegacyRecord) : MState :=
  if !r.mappedOk then
    { s with errors := s.errors ++ [missingMsg r] }
  else
    match s.db.insert (migrateVals r now) with
    | some (_, db') => { s with migrated_count := s.migrated_count + 1, db := db' }
    | none => { s with errors := s.errors ++ [existsMsg r] }

/-- Embeds the loop body of `migrate_from_localstorage`
(POST /api/plants/migrate) over the whole "plants" array, starting from
zero migrated records and an empty error list; the connection commits
once after the loop. -/
def migrate_from_localstorage (plants : List LegacyRecord) (now : Int)
    (db : DB) : MState :=
  plants.foldl (migrateStep now) ⟨0, [], db⟩

/-- Comparison used by `ORDER BY timestamp DESC`: a row sorts before
another when its timestamp is at least as large. -/
def tsGe (a b : Row) : Prop := b.timestamp ≤ a.timestamp

instance : DecidableRel tsGe := fun a b =>
  inferInstanceAs (Decidable (b.timestamp ≤ a.timestamp))

instance : IsTotal Row tsGe := ⟨fun a b => le_total b.timestamp a.timestamp⟩

instance : IsTrans Row tsGe := ⟨fun _ _ _ h1 h2 => le_trans h2 h1⟩

/-- Embeds `get_plants` (GET /api/plants):
`SELECT * FROM plants ORDER BY timestamp DESC`, returning the rows
newest first. -/
def get_plants (db : DB) : List Row := db.rows.insertionSort tsGe

/-! Sanity lemmas tying the normal-form rational constants to their
decimal spellings in the source. -/

theorem qTenth_eq : qTenth = 1/10 := by
  rw [qTenth, Rat.mk'_eq_divInt]; norm_num [Rat.divInt_eq_div]

theorem qFourFifths_eq : qFourFifths = 4/5 := by
  rw [qFourFifths, Rat.mk'_eq_divInt]; norm_num [Rat.divInt_eq_div]


/-! Concrete fixtures used to evaluate the operations on explicit
states. -/

/-- The rational written 0.5 in the examples. -/
def qHalf : ℚ := ⟨1, 2, by decide, by decide⟩

/-- A stored row named "fern" with a customized thickness of 0.5. -/
def fernRow : Row :=
  { id := 7
    name := "fern"
    timestamp := 1000
    axm := "F"
    rules := "F->FF"
    iterations := 4
    angle := 25
    angle_variation := some 0
    length_variation := some 0
    length_tapering := some 1
    leaf_probability := some 0
    leaf_generation_threshold := some 0
    length := some 1
    thickness := some qHalf
    tapering := some qFourFifths }

/-- A second stored row named "bush". -/
def bushRow : Row :=
  { id := 8
    name := "bush"
    timestamp := 2000
    axm := "B"
    rules := "B->BB"
    iterations := 3
    angle := 20
    angle_variation := some 0
    length_variation := some 0
    length_tapering := some 1
    leaf_probability := some 0
    leaf_generation_threshold := some 0
    length := some 1
    thickness := some qTenth
    tapering := some qFourFifths }

/-- A table holding fernRow and bushRow. -/
def twoRowDB : DB := ⟨[fernRow, bushRow], 9⟩

/-- A parsed body with no keys at all: the empty JSON object. -/
def emptyInput : Input :=
  { name := .absent
    axm := .absent
    rules := .absent
    iterations := .absent
    angle := .absent
    angleVariation := .absent
    lengthVariation := .absent
    lengthTapering := .absent
    leafProbability := .absent
    leafGenerationThreshold := .absent
    length := .absent
    thickness := .absent
    tapering := .absent
    timestamp := .absent
    hasExtra := false }

/-- A create body for name "fern" carrying only the required fields;
every optional field is omitted. -/
def fernInput : Input :=
  { emptyInput with
    name := .val "fern"
    axm := .val "G"
    rules := .val "G->G"
    iterations := .val 2
    angle := .val 30 }

/-- A partial-update body that only renames the target to "bush". -/
def renameInput : Input := { emptyInput with name := .val "bush" }

/-- A second rename body, turning its target into "fern". -/
def renameFernInput : Input := { emptyInput with name := .val "fern" }

/-- A create body identical to fernInput except that the required key
name is present with a JSON null value. -/
def nullNameInput : Input := { fernInput with name := .null }

/-- A legacy record with no keys at all. -/
def legEmpty : LegacyRecord :=
  { name := .absent
    axm := .absent
    rules := .absent
    iterations := .absent
    angle := .absent
    angleVariation := .absent
    lengthVariation := .absent
    lengthTapering := .absent
    leafProbability := .absent
    leafThreshold := .absent
    length := .absent
    thickness := .absent
    tapering := .absent
    timestamp := .absent }

/-- A valid legacy record named "fern" (the spec's bulk-import example,
first element). -/
def legFern : LegacyRecord :=
  { legEmpty with
    name := .val "fern"
    axm := .val "F"
    rules := .val "F->F[+F]F[-F]"
    iterations := .val 4
    angle := .val 25 }

/-- The spec's bulk-import example, second element: same name "fern". -/
def legFernDup : LegacyRecord :=
  { legEmpty with
    name := .val "fern"
    axm := .val "F"
    rules := .val "F"
    iterations := .val 1
    angle := .val 10 }

/-- A legacy record missing the required key angle. -/
def legBad : LegacyRecord :=
  { legEmpty with
    name := .val "badplant"
    axm := .val "A"
    rules := .val "A->A"
    iterations := .val 2 }

/-- A second valid legacy record named "v2". -/
def legV2 : LegacyRecord :=
  { legEmpty with
    name := .val "v2"
    axm := .val "V"
    rules := .val "V->VV"
    iterations := .val 3
    angle := .val 15
    timestamp := .val 4242 }

/-- A legacy record whose required fields carry the same states as
nullNameInput: name present but null, the rest valued. -/
def nullNameLeg : LegacyRecord :=
  { legEmpty with
    name := .null
    axm := .val "G"
    rules := .val "G->G"
    iterations := .val 2
    angle := .val 30 }

/-- The reason one loop iteration of the importer records an error for a
record, if any: the validation message when a required field is missing
or null, else the already-exists message when the insert raises. -/
def stepFailure (now : Int) (s : MState) (r : LegacyRecord) :
    Option String :=
  if !r.mappedOk then some (missingMsg r)
  else
    match s.db.insert (migrateVals r now) with
    | some _ => none
    | none => some (existsMsg r)

/-- A partial-update body supplying only a custom thickness. -/
def thickInput : Input := { emptyInput with thickness := .val qHalf }

/-- A legacy record whose five required fields carry exactly the same
states and values as fernInput. -/
def legGlike : LegacyRecord :=
  { legEmpty with
    name := .val "fern"
    axm := .val "G"
    rules := .val "G->G"
    iterations := .val 2
    angle := .val 30 }

/-- A create body carrying only the required key name. -/
def nameOnlyInput : Input := { emptyInput with name := .val "x" }

/-- The row produced by creating fernInput on the empty table at time
123. -/
def newFernRow : Row :=
  { id := 1
    name := "fern"
    timestamp := 123
    axm := "G"
    rules := "G->G"
    iterations := 2
    angle := 30
    angle_variation := some 0
    length_variation := some 0
    length_tapering := some 1
    leaf_probability := some 0
    leaf_generation_threshold := some 0
    length := some 1
    thickness := some qTenth
    tapering := some qFourFifths }

/-- A create body for a second, later plant named "bush2". -/
def bushInput : Input :=
  { emptyInput with
    name := .val "bush2"
    axm := .val "B"
    rules := .val "B->B"
    iterations := .val 1
    angle := .val 10 }

/-- The row produced by creating bushInput after newFernRow, at time
456. -/
def newBushRow : Row :=
  { id := 2
    name := "bush2"
    timestamp := 456
    axm := "B"
    rules := "B->B"
    iterations := 1
    angle := 10
    angle_variation := some 0
    length_variation := some 0
    length_tapering := some 1
    leaf_probability := some 0
    leaf_generation_threshold := some 0
    length := some 1
    thickness := some qTenth
    tapering := some qFourFifths }

/-! Helper lemmas shared by the claim theorems. -/

/-- find? commutes with mapping a function that preserves the key the
predicate looks at. -/
theorem find?_map_key {α β : Type} [DecidableEq β] (k : α → β) (f : α → α)
    (hf : ∀ a, k (f a) = k a) (x : β) (l : List α) :
    (l.map f).find? (fun a => k a = x) =
      (l.find? (fun a => k a = x)).map f := by
  induction l with
  | nil => rfl
  | cons h t ih =>
      by_cases hx : k h = x
      · simp [List.find?, hf, hx]
      · simp only [List.map_cons, List.find?]
        rw [decide_eq_false (by simpa [hf] using hx), decide_eq_false hx]
        exact ih

/-- When the keys of a list are pairwise distinct, find? on a member's
key returns exactly that member. -/
theorem find?_eq_of_nodup_key {α β : Type} [DecidableEq β] (k : α → β)
    (l : List α) (hnd : (l.map k).Nodup) (a : α) (ha : a ∈ l) :
    l.find? (fun b => k b = k a) = some a := by
  induction l with
  | nil => cases ha
  | cons h t ih =>
      rcases List.mem_cons.mp ha with rfl | hmem
      · simp [List.find?]
      · have hne : k h ≠ k a := by
          intro he
          exact (List.nodup_cons.mp (by simpa using hnd)).1
            (he ▸ List.mem_map_of_mem k hmem)
        simp only [List.find?]
        rw [decide_eq_false hne]
        exact ih (List.nodup_cons.mp (by simpa using hnd)).2 hmem

/-- A present field makes the body non-empty. -/
theorem isEmpty_false_of_name_val (d : Input) (n : String)
    (hn : d.name = .val n) : d.isEmpty = false := by
  simp [Input.isEmpty, hn, JField.present]

/-- With all five required keys present, the validation loop of
create_plant finds nothing missing. -/
theorem firstMissing_none (d : Input)
    (h1 : d.name.present = true) (h2 : d.axm.present = true)
    (h3 : d.rules.present = true) (h4 : d.iterations.present = true)
    (h5 : d.angle.present = true) : d.firstMissing = none := by
  simp [Input.firstMissing, h1, h2, h3, h4, h5]

/-- Core of the replace path: a fully valued input whose name is already
stored makes create_plant rewrite that row in place and answer
"replaced". -/
theorem create_replace_spec (d : Input) (now : Int) (db : DB)
    (n ax ru : String) (it : Int) (an : ℚ) (r0 : Row)
    (hn : d.name = .val n) (hax : d.axm = .val ax) (hru : d.rules = .val ru)
    (hit : d.iterations = .val it) (han : d.angle = .val an)
    (hnd : (db.rows.map Row.name).Nodup) (hmem : r0 ∈ db.rows)
    (hname : r0.name = n) :
    create_plant d now db =
      (.replaced (replaceRow d now ax ru it an r0),
       replaceDB db d now ax ru it an n) := by
  have hmemn : n ∈ db.names := hname ▸ List.mem_map_of_mem Row.name hmem
  have hfind : db.rows.find? (fun r => r.name = n) = some r0 := by
    have := find?_eq_of_nodup_key Row.name db.rows hnd r0 hmem
    rw [hname] at this
    exact this
  have hpres : ∀ r : Row,
      Row.name (if r.name = n then replaceRow d now ax ru it an r else r) =
        Row.name r := by
    intro r
    by_cases h : r.name = n <;> simp [h, replaceRow]
  unfold create_plant
  rw [isEmpty_false_of_name_val d n hn]
  rw [firstMissing_none d (by simp [hn, JField.present])
        (by simp [hax, JField.present]) (by simp [hru, JField.present])
        (by simp [hit, JField.present]) (by simp [han, JField.present])]
  simp only [Bool.false_eq_true, if_false]
  have hins : db.insert (createVals d now) = none := by
    simp [DB.insert, createVals, hn, hax, hru, hit, han, JField.get?, hmemn]
  rw [hins]
  unfold replaceByName
  rw [hn]
  simp only [JField.get?]
  rw [if_pos hmemn, hax, hru, hit, han]
  simp only [JField.get?]
  have hmap := find?_map_key Row.name
      (fun r => if r.name = n then replaceRow d now ax ru it an r else r)
      hpres n db.rows
  simp only [replaceDB]
  rw [hmap, hfind]
  simp [hname]

/-- C1: an input carrying values for all required fields whose name is
already stored makes createOrReplace update that row in place as a full
replace: the outcome is "replaced" (200, not 201), the row keeps its id,
timestamp becomes the store-assigned now, and every optional field
omitted from the input is reset to its declared default instead of
keeping the row's previous value. -/
theorem claim1_create_replaces_in_place (d : Input) (now : Int) (db : DB)
    (n ax ru : String) (it : Int) (an : ℚ) (r0 : Row)
    (hn : d.name = .val n) (hax : d.axm = .val ax) (hru : d.rules = .val ru)
    (hit : d.iterations = .val it) (han : d.angle = .val an)
    (hnd : (db.rows.map Row.name).Nodup) (hmem : r0 ∈ db.rows)
    (hname : r0.name = n) :
    create_plant d now db =
      (.replaced (replaceRow d now ax ru it an r0),
       replaceDB db d now ax ru it an n)
    ∧ (replaceRow d now ax ru it an r0).id = r0.id
    ∧ (replaceRow d now ax ru it an r0).timestamp = now
    ∧ (d.angleVariation = .absent →
        (replaceRow d now ax ru it an r0).angle_variation = some 0)
    ∧ (d.lengthVariation = .absent →
        (replaceRow d now ax ru it an r0).length_variation = some 0)
    ∧ (d.lengthTapering = .absent →
        (replaceRow d now ax ru it an r0).length_tapering = some 1)
    ∧ (d.leafProbability = .absent →
        (replaceRow d now ax ru it an r0).leaf_probability = some 0)
    ∧ (d.leafGenerationThreshold = .absent →
        (replaceRow d now ax ru it an r0).leaf_generation_threshold = some 0)
    ∧ (d.length = .absent → (replaceRow d now ax ru it an r0).length = some 1)
    ∧ (d.thickness = .absent →
        (replaceRow d now ax ru it an r0).thickness = some qTenth)
    ∧ (d.tapering = .absent →
        (replaceRow d now ax ru it an r0).tapering = some qFourFifths) := by
  refine ⟨create_replace_spec d now db n ax ru it an r0 hn hax hru hit han
      hnd hmem hname, rfl, rfl, ?_, ?_, ?_, ?_, ?_, ?_, ?_, ?_⟩ <;>
    intro h <;> simp [replaceRow, h, JField.getD]

/-- Witness for C1: replacing the stored "fern" row (custom thickness
0.5) by a create that omits thickness yields the "replaced" outcome and
resets thickness to the default 0.1. -/
theorem claim1_create_replaces_in_place_witness :
    fernRow ∈ twoRowDB.rows ∧ (twoRowDB.rows.map Row.name).Nodup ∧
    fernRow.thickness = some qHalf ∧
    (create_plant fernInput 9999 twoRowDB).1 =
      .replaced (replaceRow fernInput 9999 "G" "G->G" 2 30 fernRow) ∧
    (replaceRow fernInput 9999 "G" "G->G" 2 30 fernRow).thickness =
      some qTenth := by
  have h := claim1_create_replaces_in_place fernInput 9999 twoRowDB
    "fern" "G" "G->G" 2 30 fernRow rfl rfl rfl rfl rfl
    (by decide) (by decide) rfl
  exact ⟨by decide, by decide, by decide,
    by rw [h.1], h.2.2.2.2.2.2.2.2.2.1 rfl⟩

/-- Core of the merge path: when the body is non-empty, the id exists,
and the coalesced name collides with no other row, update_plant rewrites
exactly the addressed row through COALESCE and returns it. -/
theorem update_ok_spec (pid : Nat) (d : Input) (now : Int) (db : DB)
    (r0 : Row) (hne : d.isEmpty = false)
    (hfind : db.rows.find? (fun r => r.id = pid) = some r0)
    (hcol : db.rows.any
      (fun r => r.name = ((d.name.get?).getD r0.name) && r.id ≠ pid) = false) :
    update_plant pid d now db =
      (.ok (coalesceRow d now r0), coalesceDB db pid d now) := by
  have hid : r0.id = pid := by
    have h1 := List.find?_some hfind
    simpa using h1
  have hpres : ∀ r : Row,
      Row.id (if r.id = pid then coalesceRow d now r else r) = Row.id r := by
    intro r
    by_cases h : r.id = pid <;> simp [h, coalesceRow]
  unfold update_plant
  rw [hne]
  simp only [Bool.false_eq_true, if_false]
  rw [hfind]
  simp only [hcol, Bool.false_eq_true, if_false]
  have hmap := find?_map_key Row.id
      (fun r => if r.id = pid then coalesceRow d now r else r) hpres pid db.rows
  simp only [coalesceDB]
  rw [hmap, hfind]
  simp [hid]

/-- C2 counterexample: with the body only renaming row id 7 ("fern") to
the already-used name "bush", partialUpdate neither applies the supplied
name nor refreshes timestamp; it answers a raw 500 and leaves the table
untouched, so the claim fails for this present, non-null input. -/
theorem claim2_counterexample :
    renameInput.name = JField.val "bush" ∧ fernRow.id = 7 ∧
    bushRow.name = "bush" ∧ fernRow.timestamp = 1000 ∧
    update_plant 7 renameInput 3000 twoRowDB =
      (.serverError "UNIQUE constraint failed: plants.name", twoRowDB) := by
  decide

/-- C2 amended: for every existing id and every non-empty input whose
coalesced name collides with no other row, partialUpdate overwrites
exactly the present, non-null fields, retains every other column
unchanged, never touches id, never reapplies defaults, and always
refreshes timestamp. -/
theorem claim2_partial_update_merges (pid : Nat) (d : Input) (now : Int)
    (db : DB) (r0 : Row) (hne : d.isEmpty = false)
    (hfind : db.rows.find? (fun r => r.id = pid) = some r0)
    (hcol : db.rows.any
      (fun r => r.name = ((d.name.get?).getD r0.name) && r.id ≠ pid) = false) :
    update_plant pid d now db =
      (.ok (coalesceRow d now r0), coalesceDB db pid d now)
    ∧ (coalesceRow d now r0).id = r0.id
    ∧ (coalesceRow d now r0).timestamp = now
    ∧ (∀ v, d.name = .val v → (coalesceRow d now r0).name = v)
    ∧ (d.name.get? = none → (coalesceRow d now r0).name = r0.name)
    ∧ (∀ v, d.axm = .val v → (coalesceRow d now r0).axm = v)
    ∧ (d.axm.get? = none → (coalesceRow d now r0).axm = r0.axm)
    ∧ (∀ v, d.rules = .val v → (coalesceRow d now r0).rules = v)
    ∧ (d.rules.get? = none → (coalesceRow d now r0).rules = r0.rules)
    ∧ (∀ v, d.iterations = .val v → (coalesceRow d now r0).iterations = v)
    ∧ (d.iterations.get? = none →
        (coalesceRow d now r0).iterations = r0.iterations)
    ∧ (∀ v, d.angle = .val v → (coalesceRow d now r0).angle = v)
    ∧ (d.angle.get? = none → (coalesceRow d now r0).angle = r0.angle)
    ∧ (∀ v, d.angleVariation = .val v →
        (coalesceRow d now r0).angle_variation = some v)
    ∧ (d.angleVariation.get? = none →
        (coalesceRow d now r0).angle_variation = r0.angle_variation)
    ∧ (∀ v, d.lengthVariation = .val v →
        (coalesceRow d now r0).length_variation = some v)
    ∧ (d.lengthVariation.get? = none →
        (coalesceRow d now r0).length_variation = r0.length_variation)
    ∧ (∀ v, d.lengthTapering = .val v →
        (coalesceRow d now r0).length_tapering = some v)
    ∧ (d.lengthTapering.get? = none →
        (coalesceRow d now r0).length_tapering = r0.length_tapering)
    ∧ (∀ v, d.leafProbability = .val v →
        (coalesceRow d now r0).leaf_probability = some v)
    ∧ (d.leafProbability.get? = none →
        (coalesceRow d now r0).leaf_probability = r0.leaf_probability)
    ∧ (∀ v, d.leafGenerationThreshold = .val v →
        (coalesceRow d now r0).leaf_generation_threshold = some v)
    ∧ (d.leafGenerationThreshold.get? = none →
        (coalesceRow d now r0).leaf_generation_threshold =
          r0.leaf_generation_threshold)
    ∧ (∀ v, d.length = .val v → (coalesceRow d now r0).length = some v)
    ∧ (d.length.get? = none → (coalesceRow d now r0).length = r0.length)
    ∧ (∀ v, d.thickness = .val v → (coalesceRow d now r0).thickness = some v)
    ∧ (d.thickness.get? = none →
        (coalesceRow d now r0).thickness = r0.thickness)
    ∧ (∀ v, d.tapering = .val v → (coalesceRow d now r0).tapering = some v)
    ∧ (d.tapering.get? = none →
        (coalesceRow d now r0).tapering = r0.tapering) := by
  refine ⟨update_ok_spec pid d now db r0 hne hfind hcol, rfl, rfl,
    ?_, ?_, ?_, ?_, ?_, ?_, ?_, ?_, ?_, ?_, ?_, ?_, ?_, ?_, ?_, ?_, ?_, ?_,
    ?_, ?_, ?_, ?_, ?_, ?_, ?_, ?_⟩ <;>
  first
    | (intro v h; simp [coalesceRow, h, JField.get?])
    | (intro h; simp only [coalesceRow]; rw [h]; simp)

/-- Witness for C2 amended: updating row id 8 ("bush") with a body that
only supplies thickness keeps every other column and refreshes only the
timestamp. -/
theorem claim2_partial_update_merges_witness :
    thickInput.isEmpty = false ∧
    twoRowDB.rows.find? (fun r => r.id = 8) = some bushRow ∧
    (update_plant 8 thickInput 5000 twoRowDB).1 =
      .ok (coalesceRow thickInput 5000 bushRow) ∧
    (coalesceRow thickInput 5000 bushRow).thickness = some qHalf ∧
    (coalesceRow thickInput 5000 bushRow).axm = bushRow.axm ∧
    (coalesceRow thickInput 5000 bushRow).timestamp = 5000 ∧
    (coalesceRow thickInput 5000 bushRow).id = 8 := by
  have h := claim2_partial_update_merges 8 thickInput 5000 twoRowDB bushRow
    (by decide) (by decide) (by decide)
  exact ⟨by decide, by decide, by rw [h.1], by decide, by decide, by decide,
    by decide⟩

/-- A successful INSERT appends exactly the new row, stores the bound
timestamp and name, and assigns the next id. -/
theorem insert_some_spec (db : DB) (v : InsertVals) (rw : Row) (db' : DB)
    (h : db.insert v = some (rw, db')) :
    db'.rows = db.rows ++ [rw] ∧ v.timestamp = some rw.timestamp ∧
    rw.id = db.nextId ∧ v.name = some rw.name := by
  unfold DB.insert at h
  split at h
  · split at h
    · exact Option.noConfusion h
    · rename_i n ts ax ru it an hn hts hax hru hit han hmem
      simp only [Option.some.injEq, Prod.mk.injEq] at h
      obtain ⟨h1, h2⟩ := h
      subst h1
      subst h2
      exact ⟨rfl, hts, rfl, hn⟩
  · exact Option.noConfusion h

/-- An INSERT whose name value is already stored raises IntegrityError. -/
theorem insert_none_of_dup (db : DB) (v : InsertVals) (n : String)
    (hv : v.name = some n) (hd : n ∈ db.names) : db.insert v = none := by
  obtain ⟨vn, vts, vax, vru, vit, van, b7, b8, b9, b10, b11, b12, b13, b14⟩ := v
  simp only at hv
  subst hv
  cases vts <;> cases vax <;> cases vru <;> cases vit <;> cases van <;>
    simp [DB.insert, hd]

/-- A record that passes validation but whose name is already stored is
skipped by the import loop: one error string is appended, the count and
the table are untouched. -/
theorem migrateStep_dup (now : Int) (s : MState) (r : LegacyRecord)
    (n : String) (hok : r.mappedOk = true) (hn : r.name.get? = some n)
    (hdup : n ∈ s.db.names) :
    migrateStep now s r = { s with errors := s.errors ++ [existsMsg r] } := by
  unfold migrateStep
  rw [hok]
  simp only [Bool.not_true, Bool.false_eq_true, if_false]
  rw [insert_none_of_dup s.db (migrateVals r now) n (by simp [migrateVals, hn]) hdup]

/-- A partial update that renames its target to a name used by a
different row hits UNIQUE(name); the uncaught IntegrityError surfaces as
a raw 500 and nothing is written. -/
theorem update_collision_spec (pid : Nat) (d : Input) (now : Int) (db : DB)
    (r0 : Row) (nn : String) (hn : d.name = .val nn)
    (hfind : db.rows.find? (fun r => r.id = pid) = some r0)
    (hcol : db.rows.any (fun r => r.name = nn && r.id ≠ pid) = true) :
    update_plant pid d now db =
      (.serverError "UNIQUE constraint failed: plants.name", db) := by
  unfold update_plant
  rw [isEmpty_false_of_name_val d nn hn]
  simp only [Bool.false_eq_true, if_false]
  rw [hfind]
  simp only [hn, JField.get?, Option.getD_some]
  rw [if_pos hcol]

/-- C3 counterexample: renaming row id 8 ("bush") to the stored name
"fern" through PUT violates UNIQUE(name) and surfaces to the caller as a
raw 500 failure, not as the upsert-merge path; so not every
uniqueness-violating write is handled. -/
theorem claim3_counterexample :
    renameFernInput.name = JField.val "fern" ∧ fernRow.name = "fern" ∧
    bushRow.id = 8 ∧ bushRow ∈ twoRowDB.rows ∧
    update_plant 8 renameFernInput 4000 twoRowDB =
      (.serverError "UNIQUE constraint failed: plants.name", twoRowDB) := by
  decide

/-- C3 amended: createOrReplace resolves a name-uniqueness conflict by
the in-place replace path and bulk import by the skip path, so neither
surfaces a raw failure; but partialUpdate renaming a row to a name held
by a different row surfaces the uniqueness-constraint violation as a raw
500 error with no write. -/
theorem claim3_uniqueness_handling :
    (∀ (d : Input) (now : Int) (db : DB) (n ax ru : String) (it : Int)
       (an : ℚ) (r0 : Row), d.name = .val n → d.axm = .val ax →
       d.rules = .val ru → d.iterations = .val it → d.angle = .val an →
       (db.rows.map Row.name).Nodup → r0 ∈ db.rows → r0.name = n →
       ∃ r' db', create_plant d now db = (.replaced r', db'))
    ∧ (∀ (now : Int) (s : MState) (r : LegacyRecord) (n : String),
       r.mappedOk = true → r.name.get? = some n → n ∈ s.db.names →
       migrateStep now s r = { s with errors := s.errors ++ [existsMsg r] })
    ∧ (∀ (pid : Nat) (d : Input) (now : Int) (db : DB) (r0 : Row)
       (nn : String), d.name = .val nn →
       db.rows.find? (fun r => r.id = pid) = some r0 →
       db.rows.any (fun r => r.name = nn && r.id ≠ pid) = true →
       update_plant pid d now db =
         (.serverError "UNIQUE constraint failed: plants.name", db)) := by
  refine ⟨?_, ?_, ?_⟩
  · intro d now db n ax ru it an r0 hn hax hru hit han hnd hmem hname
    exact ⟨_, _, create_replace_spec d now db n ax ru it an r0 hn hax hru
      hit han hnd hmem hname⟩
  · exact migrateStep_dup
  · exact update_collision_spec

/-- Witness for C3 amended: on the two-row table, a duplicate-name
create is answered with "replaced", while the renaming PUT from the
counterexample scenario surfaces the raw uniqueness failure. -/
theorem claim3_uniqueness_handling_witness :
    (fernInput.name = JField.val "fern" ∧
     (twoRowDB.rows.map Row.name).Nodup ∧ fernRow ∈ twoRowDB.rows) ∧
    (∃ r' db', create_plant fernInput 9999 twoRowDB = (.replaced r', db')) ∧
    update_plant 8 renameFernInput 4000 twoRowDB =
      (.serverError "UNIQUE constraint failed: plants.name", twoRowDB) := by
  refine ⟨⟨rfl, by decide, by decide⟩, ?_, ?_⟩
  · exact claim3_uniqueness_handling.1 fernInput 9999 twoRowDB "fern" "G"
      "G->G" 2 30 fernRow rfl rfl rfl rfl rfl (by decide) (by decide) rfl
  · exact claim3_uniqueness_handling.2.2 8 renameFernInput 4000 twoRowDB
      bushRow "fern" rfl (by decide) (by decide)

/-- One import iteration can only append rows to the table. -/
theorem migrateStep_rows (now : Int) (s : MState) (r : LegacyRecord) :
    ∃ t, (migrateStep now s r).db.rows = s.db.rows ++ t := by
  cases hok : r.mappedOk with
  | false => exact ⟨[], by simp [migrateStep, hok]⟩
  | true =>
      cases heq : s.db.insert (migrateVals r now) with
      | none => exact ⟨[], by simp [migrateStep, hok, heq]⟩
      | some p =>
          obtain ⟨rw, db'⟩ := p
          have h := (insert_some_spec s.db (migrateVals r now) rw db' heq).1
          exact ⟨[rw], by simp [migrateStep, hok, heq, h]⟩

/-- The whole import loop can only append rows to the table. -/
theorem migrate_foldl_rows (now : Int) (plants : List LegacyRecord) :
    ∀ s : MState, ∃ t,
      (List.foldl (migrateStep now) s plants).db.rows = s.db.rows ++ t := by
  induction plants with
  | nil => intro s; exact ⟨[], by simp⟩
  | cons r rs ih =>
      intro s
      obtain ⟨t1, h1⟩ := migrateStep_rows now s r
      obtain ⟨t2, h2⟩ := ih (migrateStep now s r)
      exact ⟨t1 ++ t2, by simp [List.foldl, h2, h1]⟩

/-- C4: a batch record passing validation whose name is already stored
is skipped: the loop appends one "already exists" error, does not bump
migrated_count, and leaves the table state exactly as it was; moreover
bulk import never overwrites or removes an existing row — every stored
row survives the whole batch unchanged. -/
theorem claim4_bulk_import_never_overwrites :
    (∀ (now : Int) (s : MState) (r : LegacyRecord) (n : String),
       r.mappedOk = true → r.name.get? = some n → n ∈ s.db.names →
       migrateStep now s r =
         { migrated_count := s.migrated_count
           errors := s.errors ++ [existsMsg r]
           db := s.db })
    ∧ (∀ (plants : List LegacyRecord) (now : Int) (db : DB) (r0 : Row),
       r0 ∈ db.rows →
       r0 ∈ (migrate_from_localstorage plants now db).db.rows) := by
  constructor
  · exact migrateStep_dup
  · intro plants now db r0 hmem
    obtain ⟨t, ht⟩ := migrate_foldl_rows now plants ⟨0, [], db⟩
    unfold migrate_from_localstorage
    rw [ht]
    exact List.mem_append_left t hmem

/-- Witness for C4: importing the spec's duplicate "fern" record against
the table already holding fernRow skips it, appends the already-exists
error, counts nothing, and keeps the table identical. -/
theorem claim4_bulk_import_never_overwrites_witness :
    legFernDup.mappedOk = true ∧ legFernDup.name.get? = some "fern" ∧
    "fern" ∈ twoRowDB.names ∧ fernRow ∈ twoRowDB.rows ∧
    migrateStep 600 ⟨0, [], twoRowDB⟩ legFernDup =
      { migrated_count := 0
        errors := ["Plant \x27fern\x27 already exists, skipped"]
        db := twoRowDB } ∧
    fernRow ∈ (migrate_from_localstorage [legFernDup] 600 twoRowDB).db.rows := by
  refine ⟨by decide, by decide, by decide, by decide, ?_, ?_⟩
  · have h := claim4_bulk_import_never_overwrites.1 600 ⟨0, [], twoRowDB⟩
      legFernDup "fern" (by decide) (by decide) (by decide)
    rw [h]
    decide
  · exact claim4_bulk_import_never_overwrites.2 [legFernDup] 600 twoRowDB
      fernRow (by decide)

/-- A record that fails (validation or IntegrityError) only appends its
error string: migrated_count and the table are untouched. -/
theorem migrateStep_failure (now : Int) (s : MState) (r : LegacyRecord)
    (m : String) (h : stepFailure now s r = some m) :
    migrateStep now s r = { s with errors := s.errors ++ [m] } := by
  unfold stepFailure at h
  unfold migrateStep
  cases hok : r.mappedOk with
  | false =>
      rw [hok] at h
      simp only [Bool.not_false, if_true, Option.some.injEq] at h
      subst h
      simp
  | true =>
      rw [hok] at h
      simp only [Bool.not_true, Bool.false_eq_true, if_false] at h ⊢
      cases heq : s.db.insert (migrateVals r now) with
      | some p => rw [heq] at h; exact Option.noConfusion h
      | none =>
          rw [heq] at h
          simp only [Option.some.injEq] at h
          subst h
          rfl

/-- C5: bulk import is record-isolated.  A failing record anywhere in
the batch only contributes its error entry: the loop state is otherwise
unchanged and the remaining records are still processed from it, with no
abort and no rollback of earlier inserts; on the concrete 4-record batch
holding one duplicate name and one record missing a required field, the
report counts N-2 = 2 migrations, two ordered errors, and the two valid
records are in the store. -/
theorem claim5_record_isolation :
    (∀ (now : Int) (s : MState) (r : LegacyRecord) (m : String),
       stepFailure now s r = some m →
       migrateStep now s r =
         { migrated_count := s.migrated_count
           errors := s.errors ++ [m]
           db := s.db })
    ∧ (∀ (plants1 plants2 : List LegacyRecord) (r : LegacyRecord)
       (now : Int) (db : DB) (m : String),
       stepFailure now (migrate_from_localstorage plants1 now db) r = some m →
       migrate_from_localstorage (plants1 ++ r :: plants2) now db =
         List.foldl (migrateStep now)
           { migrated_count := (migrate_from_localstorage plants1 now db).migrated_count
             errors := (migrate_from_localstorage plants1 now db).errors ++ [m]
             db := (migrate_from_localstorage plants1 now db).db }
           plants2)
    ∧ (migrate_from_localstorage [legFern, legFernDup, legBad, legV2] 700
         ⟨[], 1⟩).migrated_count = 2
    ∧ (migrate_from_localstorage [legFern, legFernDup, legBad, legV2] 700
         ⟨[], 1⟩).errors =
        ["Plant \x27fern\x27 already exists, skipped",
         "Missing required fields in plant: badplant"]
    ∧ (migrate_from_localstorage [legFern, legFernDup, legBad, legV2] 700
         ⟨[], 1⟩).db.rows.map Row.name = ["fern", "v2"] := by
  refine ⟨migrateStep_failure, ?_, by decide, by decide, by decide⟩
  intro plants1 plants2 r now db m h
  unfold migrate_from_localstorage at h ⊢
  rw [List.foldl_append, List.foldl_cons]
  rw [migrateStep_failure now (List.foldl (migrateStep now) ⟨0, [], db⟩ plants1) r m h]

/-- Witness for C5: the duplicate "fern" record sitting between the
first valid record and two later records only adds its error entry, and
the two later records are still processed from that state. -/
theorem claim5_record_isolation_witness :
    stepFailure 700 (migrate_from_localstorage [legFern] 700 ⟨[], 1⟩)
      legFernDup = some "Plant \x27fern\x27 already exists, skipped" ∧
    migrate_from_localstorage [legFern, legFernDup, legBad, legV2] 700 ⟨[], 1⟩ =
      List.foldl (migrateStep 700)
        { migrated_count :=
            (migrate_from_localstorage [legFern] 700 ⟨[], 1⟩).migrated_count
          errors := (migrate_from_localstorage [legFern] 700 ⟨[], 1⟩).errors ++
            ["Plant \x27fern\x27 already exists, skipped"]
          db := (migrate_from_localstorage [legFern] 700 ⟨[], 1⟩).db }
        [legBad, legV2] := by
  refine ⟨by decide, ?_⟩
  exact claim5_record_isolation.2.1 [legFern] [legBad, legV2] legFernDup 700
    ⟨[], 1⟩ "Plant \x27fern\x27 already exists, skipped" (by decide)

/-- For a field that is not present-with-null, key presence and carrying
a non-null value coincide. -/
theorem present_eq_isSome {α : Type} (f : JField α) (h : f ≠ .null) :
    f.present = (f.get?).isSome := by
  cases f <;> simp_all [JField.present, JField.get?]

/-- create_plant's loop accepts exactly when all five required keys are
present. -/
theorem firstMissing_none_iff (d : Input) :
    d.firstMissing = none ↔
      (d.name.present ∧ d.axm.present ∧ d.rules.present ∧
       d.iterations.present ∧ d.angle.present) := by
  unfold Input.firstMissing
  split_ifs <;> simp_all

/-- C6 counterexample: a record whose required key name is present with
a JSON null value (all other required keys valued) is accepted by
createOrReplace's presence-based validation but rejected by
importBatch's non-null-based validation, so the two acceptance criteria
are not the same. -/
theorem claim6_counterexample :
    nullNameInput.name = JField.null ∧ nullNameLeg.name = JField.null ∧
    nullNameInput.axm = nullNameLeg.axm ∧
    nullNameInput.rules = nullNameLeg.rules ∧
    nullNameInput.iterations = nullNameLeg.iterations ∧
    nullNameInput.angle = nullNameLeg.angle ∧
    nullNameInput.firstMissing = none ∧
    nullNameLeg.mappedOk = false := by
  decide

/-- C6 amended: both operations validate the same required-field set
{name, axiom, rules, iterations, angle}, and on every record none of
whose required fields is present-with-null the two criteria agree;
they differ exactly on null-valued required keys, which createOrReplace
accepts (presence check) and importBatch rejects (non-null check). -/
theorem claim6_validation_agreement (d : Input) (l : LegacyRecord)
    (h1 : d.name = l.name) (h2 : d.axm = l.axm) (h3 : d.rules = l.rules)
    (h4 : d.iterations = l.iterations) (h5 : d.angle = l.angle)
    (hn1 : d.name ≠ .null) (hn2 : d.axm ≠ .null) (hn3 : d.rules ≠ .null)
    (hn4 : d.iterations ≠ .null) (hn5 : d.angle ≠ .null) :
    (d.firstMissing = none ↔ l.mappedOk = true) := by
  rw [firstMissing_none_iff]
  unfold LegacyRecord.mappedOk
  rw [← h1, ← h2, ← h3, ← h4, ← h5]
  rw [present_eq_isSome _ hn1, present_eq_isSome _ hn2,
    present_eq_isSome _ hn3, present_eq_isSome _ hn4,
    present_eq_isSome _ hn5]
  simp [Bool.and_eq_true]
  tauto

/-- Witness for C6 amended: fernInput and the legacy record carrying the
same required fields (none null) are accepted by both validations. -/
theorem claim6_validation_agreement_witness :
    (fernInput.name = legGlike.name ∧ fernInput.axm = legGlike.axm ∧
     fernInput.rules = legGlike.rules ∧
     fernInput.iterations = legGlike.iterations ∧
     fernInput.angle = legGlike.angle ∧ fernInput.name ≠ JField.null) ∧
    (fernInput.firstMissing = none ↔ legGlike.mappedOk = true) := by
  refine ⟨⟨rfl, rfl, rfl, rfl, rfl, by decide⟩, ?_⟩
  exact claim6_validation_agreement fernInput legGlike rfl rfl rfl rfl rfl
    (by decide) (by decide) (by decide) (by decide) (by decide)

/-- C7 counterexample: the empty JSON object is missing every required
field, yet create_plant answers the generic 400 "No JSON data provided"
rather than a 400 naming a missing field; no write happens, but the
response does not name the missing field as claimed. -/
theorem claim7_counterexample :
    emptyInput.name.present = false ∧
    emptyInput.firstMissing = some "name" ∧
    create_plant emptyInput 0 twoRowDB =
      (.badRequest "No JSON data provided", twoRowDB) ∧
    "No JSON data provided" ≠ "Missing required field: name" := by
  decide

/-- C7 amended: an input missing a required field is rejected with 400
and no write: a non-empty body gets "Missing required field: f" naming
the first missing key of [name, axiom, rules, iterations, angle], while
the entirely empty body gets the generic "No JSON data provided"; in
both cases the table is returned unchanged. -/
theorem claim7_missing_field_rejected (d : Input) (now : Int) (db : DB)
    (f : String) :
    (d.isEmpty = false → d.firstMissing = some f →
      create_plant d now db =
        (.badRequest ("Missing required field: " ++ f), db))
    ∧ (d.isEmpty = true →
      create_plant d now db = (.badRequest "No JSON data provided", db)) := by
  constructor
  · intro hne hfm
    unfold create_plant
    rw [hne]
    simp only [Bool.false_eq_true, if_false]
    rw [hfm]
  · intro he
    unfold create_plant
    rw [he]
    simp

/-- Witness for C7 amended: a body holding only name is rejected naming
"axiom", and the empty body is rejected with the generic message; the
table is unchanged both times. -/
theorem claim7_missing_field_rejected_witness :
    nameOnlyInput.isEmpty = false ∧
    nameOnlyInput.firstMissing = some "axiom" ∧
    create_plant nameOnlyInput 0 twoRowDB =
      (.badRequest ("Missing required field: " ++ "axiom"), twoRowDB) ∧
    emptyInput.isEmpty = true ∧
    create_plant emptyInput 0 twoRowDB =
      (.badRequest "No JSON data provided", twoRowDB) := by
  refine ⟨by decide, by decide, ?_, by decide, ?_⟩
  · exact (claim7_missing_field_rejected nameOnlyInput 0 twoRowDB "axiom").1
      (by decide) (by decide)
  · exact (claim7_missing_field_rejected emptyInput 0 twoRowDB "name").2
      (by decide)

/-- A "created" answer can only come from the INSERT branch: the new row
carries the store-assigned now and is appended to the table. -/
theorem create_created_spec (d : Input) (now : Int) (db : DB) (r : Row)
    (db' : DB) (h : create_plant d now db = (.created r, db')) :
    r.timestamp = now ∧ db'.rows = db.rows ++ [r] := by
  unfold create_plant at h
  split at h
  · simp at h
  · split at h
    · simp at h
    · split at h
      · rename_i p r1 db1 heq
        simp only [Prod.mk.injEq, CreateResult.created.injEq] at h
        obtain ⟨hr, hdb⟩ := h
        have hs := insert_some_spec db (createVals d now) r1 db1 heq
        have hts : some now = some r1.timestamp := hs.2.1
        refine ⟨?_, ?_⟩
        · rw [← hr]
          exact (Option.some.inj hts).symm
        · rw [← hdb, ← hr]
          exact hs.1
      · rename_i heq
        unfold replaceByName at h
        split at h
        · simp at h
        · split at h
          · split at h
            · split at h
              · simp at h
              · simp at h
            · simp at h
          · simp at h

/-- The row answered by the replace fallback always carries the
store-assigned now as its timestamp. -/
theorem replaceByName_replaced_now (db : DB) (d : Input) (now : Int)
    (r : Row) (db' : DB) (h : replaceByName db d now = (.replaced r, db')) :
    r.timestamp = now := by
  unfold replaceByName at h
  split at h
  · simp at h
  · rename_i n hn
    split at h
    · split at h
      · rename_i ax ru it an hax hru hit han
        split at h
        · rename_i r1 hfind
          simp only [Prod.mk.injEq, CreateResult.replaced.injEq] at h
          obtain ⟨hr, hdb⟩ := h
          have hmem := List.mem_of_find?_eq_some hfind
          have hpred := List.find?_some hfind
          simp only [replaceDB] at hmem
          obtain ⟨r2, hr2mem, hr2⟩ := List.mem_map.mp hmem
          by_cases hc : r2.name = n
          · rw [if_pos hc] at hr2
            rw [← hr, ← hr2]
            rfl
          · rw [if_neg hc] at hr2
            have : r1.name = n := by simpa using hpred
            rw [← hr2] at this
            exact absurd this hc
        · simp at h
      · simp at h
    · simp at h

/-- The row answered by a successful partial update always carries the
store-assigned now as its timestamp and keeps its id. -/
theorem update_ok_now (pid : Nat) (d : Input) (now : Int) (db : DB)
    (r : Row) (db' : DB) (h : update_plant pid d now db = (.ok r, db')) :
    r.timestamp = now := by
  unfold update_plant at h
  split at h
  · simp at h
  · split at h
    · simp at h
    · rename_i r0 hfind0
      split at h
      · simp at h
      · split at h
        · rename_i r1 hfind
          simp only [Prod.mk.injEq, UpdateResult.ok.injEq] at h
          obtain ⟨hr, hdb⟩ := h
          have hmem := List.mem_of_find?_eq_some hfind
          have hpred := List.find?_some hfind
          simp only [coalesceDB] at hmem
          obtain ⟨r2, hr2mem, hr2⟩ := List.mem_map.mp hmem
          by_cases hc : r2.id = pid
          · rw [if_pos hc] at hr2
            rw [← hr, ← hr2]
            rfl
          · rw [if_neg hc] at hr2
            have : r1.id = pid := by simpa using hpred
            rw [← hr2] at this
            exact absurd this hc
        · simp at h

/-- C8: on every successful create (created or replaced) and on every
successful partial update, the stored timestamp is the store-assigned
now whatever the body carried; only the bulk importer binds a supplied
timestamp into its INSERT, defaulting to store-assigned now when the key
is absent, and a successful insert stores exactly the bound value. -/
theorem claim8_timestamp_policy :
    (∀ (d : Input) (now : Int) (db : DB) (r : Row) (db' : DB),
       create_plant d now db = (.created r, db') → r.timestamp = now)
    ∧ (∀ (d : Input) (now : Int) (db : DB) (r : Row) (db' : DB),
       create_plant d now db = (.replaced r, db') → r.timestamp = now)
    ∧ (∀ (pid : Nat) (d : Input) (now : Int) (db : DB) (r : Row) (db' : DB),
       update_plant pid d now db = (.ok r, db') → r.timestamp = now)
    ∧ (∀ (l : LegacyRecord) (now t : Int), l.timestamp = .val t →
       (migrateVals l now).timestamp = some t)
    ∧ (∀ (l : LegacyRecord) (now : Int), l.timestamp = .absent →
       (migrateVals l now).timestamp = some now)
    ∧ (∀ (db : DB) (v : InsertVals) (r : Row) (db' : DB),
       db.insert v = some (r, db') → v.timestamp = some r.timestamp) := by
  refine ⟨?_, ?_, ?_, ?_, ?_, ?_⟩
  · intro d now db r db' h
    exact (create_created_spec d now db r db' h).1
  · intro d now db r db' h
    unfold create_plant at h
    split at h
    · simp at h
    · split at h
      · simp at h
      · split at h
        · simp at h
        · exact replaceByName_replaced_now db d now r db' h
  · exact update_ok_now
  · intro l now t h
    simp [migrateVals, h, JField.getD]
  · intro l now h
    simp [migrateVals, h, JField.getD]
  · intro db v r db' h
    exact (insert_some_spec db v r db' h).2.1

/-- Witness for C8: a concrete create, replace-create, partial update,
and the two importer timestamp modes, each showing the stored timestamp
source. -/
theorem claim8_timestamp_policy_witness :
    create_plant fernInput 123 ⟨[], 1⟩ =
      (.created newFernRow, ⟨[newFernRow], 2⟩) ∧
    newFernRow.timestamp = 123 ∧
    fernInput.timestamp = JField.absent ∧
    (replaceRow fernInput 9999 "G" "G->G" 2 30 fernRow).timestamp = 9999 ∧
    (coalesceRow thickInput 5000 bushRow).timestamp = 5000 ∧
    legV2.timestamp = JField.val 4242 ∧
    (migrateVals legV2 700).timestamp = some 4242 ∧
    legFern.timestamp = JField.absent ∧
    (migrateVals legFern 700).timestamp = some 700 := by
  have hc : create_plant fernInput 123 ⟨[], 1⟩ =
      (.created newFernRow, ⟨[newFernRow], 2⟩) := by decide
  have hr : create_plant fernInput 9999 twoRowDB =
      (.replaced (replaceRow fernInput 9999 "G" "G->G" 2 30 fernRow),
       replaceDB twoRowDB fernInput 9999 "G" "G->G" 2 30 "fern") := by decide
  have hu : update_plant 8 thickInput 5000 twoRowDB =
      (.ok (coalesceRow thickInput 5000 bushRow),
       coalesceDB twoRowDB 8 thickInput 5000) := by decide
  exact ⟨hc, claim8_timestamp_policy.1 fernInput 123 ⟨[], 1⟩ newFernRow
      ⟨[newFernRow], 2⟩ hc, rfl,
    claim8_timestamp_policy.2.1 fernInput 9999 twoRowDB
      (replaceRow fernInput 9999 "G" "G->G" 2 30 fernRow)
      (replaceDB twoRowDB fernInput 9999 "G" "G->G" 2 30 "fern") hr,
    claim8_timestamp_policy.2.2.1 8 thickInput 5000 twoRowDB
      (coalesceRow thickInput 5000 bushRow)
      (coalesceDB twoRowDB 8 thickInput 5000) hu,
    rfl, claim8_timestamp_policy.2.2.2.1 legV2 700 4242 rfl,
    rfl, claim8_timestamp_policy.2.2.2.2.1 legFern 700 rfl⟩

/-- In the listing, a strictly newer row always sits strictly before an
older one. -/
theorem get_plants_newer_first (db : DB) (a b : Row)
    (i j : Fin (get_plants db).length)
    (hia : (get_plants db).get i = a) (hjb : (get_plants db).get j = b)
    (hlt : a.timestamp < b.timestamp) : j < i := by
  have hs : List.Sorted tsGe (get_plants db) :=
    List.sorted_insertionSort tsGe db.rows
  rw [List.Sorted, List.pairwise_iff_get] at hs
  by_contra hni
  push_neg at hni
  rcases lt_or_eq_of_le hni with hij | hij
  · have hts := hs i j hij
    rw [hia, hjb] at hts
    exact absurd hlt (not_lt.mpr hts)
  · rw [hij, hjb] at hia
    rw [hia] at hlt
    exact lt_irrefl _ hlt

/-- C9: listAll returns exactly the stored records (a permutation of the
table) ordered by timestamp descending; a strictly newer row is placed
strictly before an older one, and in particular after two successful
creates at increasing clock values the second row appears before the
first in the listing. -/
theorem claim9_listAll_newest_first :
    (∀ db : DB, (get_plants db).Perm db.rows)
    ∧ (∀ db : DB, List.Sorted tsGe (get_plants db))
    ∧ (∀ (db : DB) (a b : Row) (i j : Fin (get_plants db).length),
        (get_plants db).get i = a → (get_plants db).get j = b →
        a.timestamp < b.timestamp → j < i)
    ∧ (∀ (dA dB : Input) (nowA nowB : Int) (db db1 db2 : DB) (rA rB : Row),
        create_plant dA nowA db = (.created rA, db1) →
        create_plant dB nowB db1 = (.created rB, db2) →
        nowA < nowB →
        ∀ (i j : Fin (get_plants db2).length),
          (get_plants db2).get i = rA → (get_plants db2).get j = rB →
          j < i) := by
  refine ⟨?_, ?_, ?_, ?_⟩
  · intro db
    exact List.perm_insertionSort tsGe db.rows
  · intro db
    exact List.sorted_insertionSort tsGe db.rows
  · exact get_plants_newer_first
  · intro dA dB nowA nowB db db1 db2 rA rB hA hB hAB i j hiA hjB
    have htA : rA.timestamp = nowA := (create_created_spec dA nowA db rA db1 hA).1
    have htB : rB.timestamp = nowB := (create_created_spec dB nowB db1 rB db2 hB).1
    exact get_plants_newer_first db2 rA rB i j hiA hjB
      (by rw [htA, htB]; exact hAB)

/-- Witness for C9: creating "fern" at 123 and then "bush2" at 456 on an
initially empty table lists bush2 first; the later row's index (0) is
strictly below the earlier row's index (1). -/
theorem claim9_listAll_newest_first_witness :
    create_plant fernInput 123 ⟨[], 1⟩ =
      (.created newFernRow, ⟨[newFernRow], 2⟩) ∧
    create_plant bushInput 456 ⟨[newFernRow], 2⟩ =
      (.created newBushRow, ⟨[newFernRow, newBushRow], 3⟩) ∧
    get_plants ⟨[newFernRow, newBushRow], 3⟩ = [newBushRow, newFernRow] ∧
    (⟨0, by decide⟩ :
        Fin (get_plants (⟨[newFernRow, newBushRow], 3⟩ : DB)).length) <
      ⟨1, by decide⟩ := by
  have hA : create_plant fernInput 123 ⟨[], 1⟩ =
      (.created newFernRow, ⟨[newFernRow], 2⟩) := by decide
  have hB : create_plant bushInput 456 ⟨[newFernRow], 2⟩ =
      (.created newBushRow, ⟨[newFernRow, newBushRow], 3⟩) := by decide
  refine ⟨hA, hB, by decide, ?_⟩
  exact claim9_listAll_newest_first.2.2.2 fernInput bushInput 123 456
    ⟨[], 1⟩ ⟨[newFernRow], 2⟩ ⟨[newFernRow, newBushRow], 3⟩
    newFernRow newBushRow hA hB (by decide)
    ⟨1, by decide⟩ ⟨0, by decide⟩ (by decide) (by decide)

/-- C10: a body parsing to the empty JSON object is rejected by both
POST /api/plants and PUT /api/plants/id with the generic 400
"No JSON data provided" before anything is written — even on PUT, where
every field is optional, an empty body does not merely refresh the
timestamp. -/
theorem claim10_empty_body_rejected (d : Input) (now : Int) (db : DB)
    (pid : Nat) (he : d.isEmpty = true) :
    create_plant d now db = (.badRequest "No JSON data provided", db) ∧
    update_plant pid d now db = (.badRequest "No JSON data provided", db) := by
  constructor
  · unfold create_plant
    rw [he]
    simp
  · unfold update_plant
    rw [he]
    simp

/-- Witness for C10: the empty body against the two-row table, aimed at
the existing id 7, is rejected by both handlers and writes nothing. -/
theorem claim10_empty_body_rejected_witness :
    emptyInput.isEmpty = true ∧
    create_plant emptyInput 42 twoRowDB =
      (.badRequest "No JSON data provided", twoRowDB) ∧
    update_plant 7 emptyInput 42 twoRowDB =
      (.badRequest "No JSON data provided", twoRowDB) := by
  refine ⟨by decide, ?_, ?_⟩
  · exact (claim10_empty_body_rejected emptyInput 42 twoRowDB 7 rfl).1
  · exact (claim10_empty_body_rejected emptyInput 42 twoRowDB 7 rfl).2
